import Mathlib

/-!
Verification of the conversation/session manager of the chat-proxy backend.

The embedded code is src/main.py: a FastAPI service keeping a global dict of
per-session Conversations, each a list of role/content message dicts headed by
a fixed system prompt, and forwarding the full history to the Groq completion
endpoint on every turn.  The Conversation constructor of src/ai_muj_bot.py is
embedded as well where a claim references it; the remaining logic of that file
is textually identical to src/main.py except that its module import fails when
no API key is configured, so its request path always runs with a configured
client.

Modelling conventions.  Python dicts of shape role/content become the `Msg`
structure; the global `conversations` dict becomes an association list `Store`
threaded through the functions; in-place mutation of a Conversation becomes
returning the updated Conversation and writing it back into the store; raising
`HTTPException(status_code, detail)` becomes returning
`Except.error ⟨status_code, detail⟩`; Python `str(e)` on an HTTPException is
`HTTPException.toStr` (Starlette renders it as "status: detail"); the external
network call `client.chat.completions.create` is modelled by a `ProviderResult`
parameter giving the outcome the provider would produce, with
`ProviderResult.success content` carrying `completion.choices[0].message.content`
(`Option String`, `none` being Python `None`) and `ProviderResult.failure`
carrying the text of a raised exception.  Python truthiness of the optional
content (`if not content`) is `pyFalsy`.
-/

/-- One chat message: a role tag and text content. -/
structure Msg where
  role : String
  content : String
deriving DecidableEq, Repr

/-- The system prompt literal from src/main.py lines 39-111 (adjacent Python
string literals concatenated). -/
def sabrangPrompt : String :=
  "You are Sabrang Assistant, the official AI helper for SABRANG 2025 - JK Lakshmipat University\x27s premier annual cultural and technical fest. "
  ++ "You provide accurate, helpful information about the festival. Always include:\n"
  ++ "- Event details, categories, dates, and timings\n"
  ++ "- Registration process, fees, and on-spot/online options\n"
  ++ "- Competition rules, rounds, and judgment criteria\n"
  ++ "- Workshop schedules and interactive sessions\n"
  ++ "- Pro-show, concerts, and special attractions\n"
  ++ "- Campus location, directions, and accommodation details\n"
  ++ "- Contact details of organizing committee members\n"
  ++ "- Sponsorship and partnership information\n"
  ++ "- Festival highlights and theme\n"
  ++ "- Committees and teams working behind the fest\n\n"
  ++ "🎉 About SABRANG 2025:\n"
  ++ "Theme: *Noorvana* – symbolizing light, positivity, and new beginnings. SABRANG brings together creativity, culture, technology, and fun.\n"
  ++ "It is a 3-day extravaganza of music, dance, gaming, art, and innovation.\n\n"
  ++ "📅 Registration:\n"
  ++ "- One-time fest registration covers all 3 days.\n"
  ++ "- Each participant can join up to 3 events.\n"
  ++ "- Both online (website) and on-spot registrations are available.\n"
  ++ "- Fest passes are mandatory even for non-competitors.\n"
  ++ "- Accommodation (paid) and transport are available for outstation participants.\n"
  ++ "- Online payment via website; offline payment via cash or online.\n\n"
  ++ "🎭 Flagship & Cultural Events:\n"
  ++ "- Panache (Rampwalk)\n"
  ++ "- Echoes of Noor (Solo Singing)\n"
  ++ "- Band Jam\n"
  ++ "- Step Up (Solo Dance)\n"
  ++ "- Dance Battle (Group Dance)\n"
  ++ "- Versevaad (Rap Battle)\n"
  ++ "- Sutradhar (Theatre/Drama)\n"
  ++ "- In Conversation With (Talk Series)\n\n"
  ++ "🎨 Creative Arts:\n"
  ++ "- Focus (Photography)\n"
  ++ "- Art Relay\n"
  ++ "- Clay Modelling\n\n"
  ++ "🎮 Gaming & Fun:\n"
  ++ "- Valorant Tournament\n"
  ++ "- BGMI Tournament\n"
  ++ "- Free Fire Tournament\n"
  ++ "- Bidding Before Wicket (Cricket Auction)\n"
  ++ "- Seal the Deal (Finance Trading Simulation)\n"
  ++ "- Courtroom (Murder Mystery)\n"
  ++ "- Dumb Show (Acting Game)\n"
  ++ "- Robosoccer (Special Event)\n\n"
  ++ "⭐ Attractions:\n"
  ++ "- Pro-shows and concerts\n"
  ++ "- Workshops, panel discussions, and competitions\n"
  ++ "- Food stalls, art displays, and live performances\n\n"
  ++ "📍 Location:\n"
  ++ "JK Lakshmipat University, Jaipur – accessible via major routes in Rajasthan.\n\n"
  ++ "☎️ Key Contacts:\n"
  ++ "- Organizing Head: Diya Garg (+91 72968 59397)\n"
  ++ "- Registration Core: Jayash Gahlot (+91 83062 74199), Ayushi Kabra (+91 93523 06947)\n"
  ++ "- Official Website: https://sabrang.jklu.edu.in\n\n"
  ++ "👥 Committees:\n"
  ++ "- Registration, Cultural, Technical, Stage & Venue, Media, Hospitality, Internal Arrangements,\n"
  ++ "  Decor, Sponsorship & Promotion, Photography, Social Media, Prizes & Certificates,\n"
  ++ "  Transportation, and Discipline.\n\n"
  ++ "💡 Tone & Role:\n"
  ++ "Be friendly, enthusiastic, and factual. Encourage participation and highlight the uniqueness of SABRANG 2025. "
  ++ "If users ask about unrelated topics, gently redirect to SABRANG with suggestions for events, competitions, or activities."

/-- The pinned system message seeded by Conversation.__init__ in src/main.py. -/
def systemMessage : Msg := ⟨"system", sabrangPrompt⟩

/-- A Conversation (src/main.py lines 34-115): a message list and an active
flag. -/
structure Conversation where
  messages : List Msg
  active : Bool
deriving DecidableEq, Repr

/-- Conversation.__init__ of src/main.py: one system message, active = True. -/
def Conversation.init : Conversation := ⟨[systemMessage], true⟩

/-- The system prompt literal of src/ai_muj_bot.py lines 37-43. -/
def mujPrompt : String :=
  "You are K&M Assistant for agriculture and local market help. "
  ++ "Keep replies short, friendly and practical (2-5 sentences). No extra formality. "
  ++ "Focus ONLY on: crops, soil, weather, fertilizers, pesticides, equipment, logistics/transport, "
  ++ "warehousing/cold storage, buy/sell produce, prices, demand/supply, farmer schemes & safety. "
  ++ "If a question is unrelated, say briefly: \x27I can help with agriculture and market topics.\x27 and offer a related suggestion."

/-- Conversation.__init__ of src/ai_muj_bot.py lines 32-46: one system message
(the K&M prompt), active = True. -/
def mujConversationInit : Conversation := ⟨[⟨"system", mujPrompt⟩], true⟩

/-- FastAPI/Starlette HTTPException as raised throughout src/main.py. -/
structure HTTPException where
  status_code : Nat
  detail : String
deriving DecidableEq, Repr

/-- Python str() of a Starlette HTTPException: "status_code: detail". -/
def HTTPException.toStr (e : HTTPException) : String :=
  toString e.status_code ++ ": " ++ e.detail

/-- Outcome of the external provider call client.chat.completions.create. -/
inductive ProviderResult where
  /-- The call returned; the argument is completion.choices[0].message.content,
  which the Groq SDK types as an optional string. -/
  | success (content : Option String)
  /-- The call raised; the argument is the str() of the raised exception. -/
  | failure (exnText : String)
deriving DecidableEq, Repr

/-- Python truthiness test `not content` on the optional content string. -/
def pyFalsy : Option String → Bool
  | none => true
  | some s => s.isEmpty

/-- query_groq_api (src/main.py lines 119-139).  `clientConfigured` is whether
the module-level `client` is non-None (a GROQ_API_KEY was present).  The raise
of HTTPException(500, "Empty response from Groq API") sits inside the try
block, so the generic `except Exception` catches it and re-raises it wrapped
as HTTPException(500, "Error with Groq API: " + str(e)). -/
def query_groq_api (clientConfigured : Bool) (provider : ProviderResult) :
    Except HTTPException String :=
  if clientConfigured = false then
    Except.error ⟨503, "Groq API client not initialized. API key missing."⟩
  else
    match provider with
    | ProviderResult.failure exnText =>
        Except.error ⟨500, "Error with Groq API: " ++ exnText⟩
    | ProviderResult.success content =>
        if pyFalsy content then
          Except.error ⟨500, "Error with Groq API: "
            ++ HTTPException.toStr ⟨500, "Empty response from Groq API"⟩⟩
        else
          Except.ok (content.getD "")

/-- Request body of POST /chat/ (src/main.py lines 29-32).  All three fields
are plain strings; pydantic performs no emptiness, length or role-enumeration
validation on them (`role` merely defaults to "user" when absent). -/
structure UserInput where
  message : String
  role : String
  conversation_id : String
deriving DecidableEq, Repr

/-- Success response body of the chat endpoint (src/main.py lines 171-174). -/
structure ChatResponse where
  response : String
  conversation_id : String
deriving DecidableEq, Repr

/-- The body of the chat endpoint acting on one Conversation (src/main.py
lines 150-176): reject if not active (HTTP 400, raised outside the try);
otherwise append the user message, call query_groq_api, and on success append
the assistant message.  Any exception inside the try — including an
HTTPException raised by query_groq_api — is caught by `except Exception as e`
and re-raised as HTTPException(500, str(e)).  The user message appended before
the failing call remains in the list. -/
def chat (clientConfigured : Bool) (provider : ProviderResult)
    (conversation : Conversation) (input : UserInput) :
    Conversation × Except HTTPException ChatResponse :=
  if conversation.active = false then
    (conversation,
     Except.error ⟨400, "The chat session has ended. Please start a new session."⟩)
  else
    let afterUser : Conversation :=
      ⟨conversation.messages ++ [⟨input.role, input.message⟩], conversation.active⟩
    match query_groq_api clientConfigured provider with
    | Except.error e =>
        (afterUser, Except.error ⟨500, HTTPException.toStr e⟩)
    | Except.ok response =>
        (⟨afterUser.messages ++ [⟨"assistant", response⟩], afterUser.active⟩,
         Except.ok ⟨response, input.conversation_id⟩)

/-- The global `conversations` dict (src/main.py line 117), as an association
list from conversation_id to Conversation. -/
abbrev Store := List (String × Conversation)

/-- Dict membership / indexing: first binding for the key, if any. -/
def lookupConv : Store → String → Option Conversation
  | [], _ => none
  | (k, c) :: rest, cid => if k = cid then some c else lookupConv rest cid

/-- Dict assignment `conversations[cid] = c`: replace the binding if the key
is present, otherwise append a new binding. -/
def storeSet : Store → String → Conversation → Store
  | [], cid, c => [(cid, c)]
  | (k, c0) :: rest, cid, c =>
      if k = cid then (k, c) :: rest else (k, c0) :: storeSet rest cid c

/-- get_or_create_conversation (src/main.py lines 141-144): return the stored
Conversation for the id, creating and inserting a fresh one first if absent. -/
def get_or_create_conversation (conversations : Store) (conversation_id : String) :
    Store × Conversation :=
  match lookupConv conversations conversation_id with
  | some c => (conversations, c)
  | none =>
      (storeSet conversations conversation_id Conversation.init, Conversation.init)

/-- The full POST /chat/ handler (src/main.py lines 146-176) over the global
store: look up or create the Conversation, run the turn, and write the
(possibly mutated) Conversation back — in Python the mutation is in place, so
it is visible in the dict even when the turn ends in an exception. -/
def chat_endpoint (clientConfigured : Bool) (provider : ProviderResult)
    (conversations : Store) (input : UserInput) :
    Store × Except HTTPException ChatResponse :=
  let sc := get_or_create_conversation conversations input.conversation_id
  let cr := chat clientConfigured provider sc.2 input
  (storeSet sc.1 input.conversation_id cr.1, cr.2)

/-- Stores reachable from the empty dict by any sequence of chat requests,
with arbitrary provider outcomes and client configuration at each step. -/
inductive Reachable : Store → Prop where
  | init : Reachable []
  | step (clientConfigured : Bool) (provider : ProviderResult) (input : UserInput)
      (s : Store) : Reachable s →
      Reachable (chat_endpoint clientConfigured provider s input).1

/-- The error raised for a turn on an ended conversation (src/main.py lines
151-154). -/
def sessionEndedExn : HTTPException :=
  ⟨400, "The chat session has ended. Please start a new session."⟩

/-- A sample request, following the worked example of the specification. -/
def demoInput : UserInput := ⟨"What is Sabrang?", "user", "abc123"⟩

/-- A sample assistant reply used in the concrete runs. -/
def demoReply : String := "Sabrang is the annual fest of JKLU."

/-- The conversation after one successful demo turn. -/
def demoConv : Conversation :=
  (chat true (ProviderResult.success (some demoReply)) Conversation.init demoInput).1

/-- The store after one successful demo request on the empty store. -/
def demoStore : Store :=
  (chat_endpoint true (ProviderResult.success (some demoReply)) [] demoInput).1

/-- The conversation after a successful turn with user message "A" answered
by "B" — the first two appends of the specification's windowing example. -/
def convAfterAB : Conversation :=
  (chat true (ProviderResult.success (some "B")) Conversation.init
    ⟨"A", "user", "abc123"⟩).1

/-- The conversation after a further successful turn with user message "C"
answered by "D": the four appends A, B, C, D of the specification's windowing
example (which takes maxHistory = 2). -/
def convAfterABCD : Conversation :=
  (chat true (ProviderResult.success (some "D")) convAfterAB
    ⟨"C", "user", "abc123"⟩).1

/-- A conversation whose active flag has been cleared. -/
def endedConversation : Conversation := ⟨[systemMessage], false⟩

/-- A store holding the ended conversation under the sample id. -/
def endedStore : Store := [("abc123", endedConversation)]

/-- A request whose role lies outside the enumeration system/user/assistant. -/
def wizardInput : UserInput := ⟨"cast a spell", "wizard", "abc123"⟩

/-- A request with empty message content. -/
def emptyInput : UserInput := ⟨"", "user", "abc123"⟩

/-! ### Helper lemmas about the store -/

/-- Reading back the key just written returns the written Conversation. -/
theorem lookupConv_storeSet_self (s : Store) (cid : String) (c : Conversation) :
    lookupConv (storeSet s cid c) cid = some c := by
  induction s with
  | nil => simp [storeSet, lookupConv]
  | cons hd rest ih =>
      obtain ⟨k, c0⟩ := hd
      by_cases hk : k = cid
      · simp [storeSet, lookupConv, hk]
      · simp [storeSet, lookupConv, hk, ih]

/-- Reading a different key is unaffected by a write. -/
theorem lookupConv_storeSet_other (s : Store) (cid cid' : String) (c : Conversation)
    (h : cid' ≠ cid) :
    lookupConv (storeSet s cid c) cid' = lookupConv s cid' := by
  have hne : ¬cid = cid' := fun he => h he.symm
  induction s with
  | nil => simp [storeSet, lookupConv, hne]
  | cons hd rest ih =>
      obtain ⟨k, c0⟩ := hd
      by_cases hk : k = cid
      · subst hk
        simp [storeSet, lookupConv, hne]
      · simp [storeSet, lookupConv, hk, ih]

/-- Writing back the value already stored leaves the store unchanged. -/
theorem storeSet_lookup_eq (s : Store) (cid : String) (c : Conversation)
    (h : lookupConv s cid = some c) : storeSet s cid c = s := by
  induction s with
  | nil => simp [lookupConv] at h
  | cons hd rest ih =>
      obtain ⟨k, c0⟩ := hd
      by_cases hk : k = cid
      · simp [lookupConv, hk] at h
        simp [storeSet, hk, h]
      · simp [lookupConv, hk] at h
        simp [storeSet, hk, ih h]

/-- After get_or_create_conversation, the returned Conversation is exactly the
one stored under the id in the returned store. -/
theorem get_or_create_lookup (s : Store) (cid : String) :
    lookupConv (get_or_create_conversation s cid).1 cid
      = some (get_or_create_conversation s cid).2 := by
  unfold get_or_create_conversation
  cases h : lookupConv s cid with
  | some c => simp [h]
  | none => simp [h, lookupConv_storeSet_self]

/-! ### Helper lemmas about one turn -/

/-- A turn only ever appends: the prior message list is a prefix of the new
one, in all branches (rejection, gateway failure, success). -/
theorem chat_messages_prefix (cc : Bool) (p : ProviderResult)
    (conversation : Conversation) (input : UserInput) :
    conversation.messages <+: (chat cc p conversation input).1.messages := by
  unfold chat
  by_cases ha : conversation.active = false
  · simp [ha]
  · cases hq : query_groq_api cc p with
    | error e => simp [ha, hq]
    | ok r =>
        simp only [ha, if_false, hq]
        exact ⟨[⟨input.role, input.message⟩, ⟨"assistant", r⟩], by simp⟩

/-- A turn never flips the active flag. -/
theorem chat_active_eq (cc : Bool) (p : ProviderResult)
    (conversation : Conversation) (input : UserInput) :
    (chat cc p conversation input).1.active = conversation.active := by
  unfold chat
  by_cases ha : conversation.active = false
  · simp [ha]
  · cases hq : query_groq_api cc p with
    | error e => simp [ha, hq]
    | ok r => simp [ha, hq]

/-! ### The reachable-state invariant -/

/-- The per-Conversation invariant maintained by the endpoint: the flag is
still true and the list still starts with the pinned system message. -/
def ConvInv (c : Conversation) : Prop :=
  c.active = true ∧ c.messages.head? = some systemMessage

/-- Every Conversation stored in the dict satisfies the invariant. -/
def StoreInv (s : Store) : Prop :=
  ∀ cid c, lookupConv s cid = some c → ConvInv c

theorem convInv_init : ConvInv Conversation.init :=
  ⟨rfl, rfl⟩

/-- One turn preserves the per-Conversation invariant. -/
theorem convInv_chat (cc : Bool) (p : ProviderResult) (c : Conversation)
    (input : UserInput) (h : ConvInv c) : ConvInv (chat cc p c input).1 := by
  obtain ⟨hact, hhead⟩ := h
  refine ⟨by rw [chat_active_eq]; exact hact, ?_⟩
  obtain ⟨t, ht⟩ := chat_messages_prefix cc p c input
  cases hm : c.messages with
  | nil => rw [hm] at hhead; simp at hhead
  | cons m ms =>
      rw [hm] at hhead ht
      simp at hhead
      rw [← ht, hhead]
      simp

theorem storeInv_nil : StoreInv [] := by
  intro cid c h
  simp [lookupConv] at h

/-- Writing an invariant-satisfying Conversation preserves the store
invariant. -/
theorem storeInv_storeSet (s : Store) (cid : String) (c : Conversation)
    (hs : StoreInv s) (hc : ConvInv c) : StoreInv (storeSet s cid c) := by
  intro cid' c' h
  by_cases he : cid' = cid
  · subst he
    rw [lookupConv_storeSet_self] at h
    cases h
    exact hc
  · rw [lookupConv_storeSet_other s cid cid' c he] at h
    exact hs cid' c' h

/-- get_or_create_conversation preserves the store invariant and hands back an
invariant-satisfying Conversation. -/
theorem storeInv_get_or_create (s : Store) (cid : String) (hs : StoreInv s) :
    StoreInv (get_or_create_conversation s cid).1
      ∧ ConvInv (get_or_create_conversation s cid).2 := by
  unfold get_or_create_conversation
  cases h : lookupConv s cid with
  | some c => exact ⟨by simpa [h] using hs, by simpa [h] using hs cid c h⟩
  | none =>
      refine ⟨?_, by simp [h]; exact convInv_init⟩
      simp only [h]
      exact storeInv_storeSet s cid Conversation.init hs convInv_init

/-- Every store reachable through the chat endpoint satisfies the
invariant. -/
theorem reachable_storeInv (s : Store) (h : Reachable s) : StoreInv s := by
  induction h with
  | init => exact storeInv_nil
  | step cc p input s hs ih =>
      unfold chat_endpoint
      obtain ⟨h1, h2⟩ := storeInv_get_or_create s input.conversation_id ih
      exact storeInv_storeSet _ _ _ h1
        (convInv_chat cc p (get_or_create_conversation s input.conversation_id).2 input h2)

/-- Any error produced by a turn on an active conversation carries status 500:
the 400 rejection needs an inactive conversation, and every other failure path
goes through the generic handler that re-raises with status 500. -/
theorem chat_error_status (cc : Bool) (p : ProviderResult) (conv : Conversation)
    (input : UserInput) (h : conv.active = true) (e : HTTPException)
    (he : (chat cc p conv input).2 = Except.error e) : e.status_code = 500 := by
  unfold chat at he
  rw [h] at he
  simp only [Bool.true_eq_false, if_false] at he
  cases hq : query_groq_api cc p with
  | error e' =>
      rw [hq] at he
      simp only at he
      cases he
      rfl
  | ok r =>
      rw [hq] at he
      simp at he

/-- On an active conversation the incoming user message — whatever its role
and content — ends up in the message list. -/
theorem chat_user_msg_mem (cc : Bool) (p : ProviderResult) (conv : Conversation)
    (input : UserInput) (h : conv.active = true) :
    Msg.mk input.role input.message ∈ (chat cc p conv input).1.messages := by
  unfold chat
  rw [h]
  simp only [Bool.true_eq_false, if_false]
  cases hq : query_groq_api cc p with
  | error e => simp
  | ok r => simp

/-! ### Claims -/

/-- C1 (counterexample): taking the specification's window size maxHistory = 2,
after the four appends A, B, C, D of two successful turns the message list has
length 5, which exceeds maxHistory + 1 = 3 — the code performs no windowing,
so no bound of the form maxHistory + 1 can hold after every append. -/
theorem C1_counterexample :
    convAfterABCD.messages.length = 5 ∧ ¬convAfterABCD.messages.length ≤ 2 + 1 := by
  constructor
  · rfl
  · decide

/-- C1 (amended): after every sequence of appends performed through the chat
endpoint, the message at index 0 is still the pinned system message (role
system), but no length bound holds: a turn never removes messages — the
previous list always persists as a prefix — so the list length only grows and
is not bounded by maxHistory + 1 for any maxHistory. -/
theorem C1_head_system_no_window (s : Store) (h : Reachable s) :
    systemMessage.role = "system" ∧
    (∀ cid c, lookupConv s cid = some c → c.messages.head? = some systemMessage) ∧
    (∀ cc p conv input, conv.messages <+: (chat cc p conv input).1.messages) := by
  refine ⟨rfl, ?_, ?_⟩
  · intro cid c hc
    exact (reachable_storeInv s h cid c hc).2
  · intro cc p conv input
    exact chat_messages_prefix cc p conv input

/-- C1 (witness): in the store reached by one successful demo request, the
conversation stored under "abc123" still starts with the system message. -/
theorem C1_witness : demoConv.messages.head? = some systemMessage :=
  (C1_head_system_no_window demoStore
      (Reachable.step true (ProviderResult.success (some demoReply)) demoInput []
        Reachable.init)).2.1
    "abc123" demoConv rfl

/-- C2 (counterexample): with maxHistory = 2 and the appends A, B, C, D after
the system message, the final history is not the windowed [system, C, D] the
claim demands. -/
theorem C2_counterexample :
    convAfterABCD.messages
      ≠ [systemMessage, ⟨"user", "C"⟩, ⟨"assistant", "D"⟩] := by
  intro h
  have h5 : convAfterABCD.messages.length = 5 := rfl
  rw [h] at h5
  simp at h5

/-- C2 (amended): appends apply no windowing at all — with the appends A, B,
C, D after the system message, the final history is the full
[system, A, B, C, D]: nothing is ever truncated or evicted. -/
theorem C2_no_windowing :
    convAfterABCD.messages
      = [systemMessage, ⟨"user", "A"⟩, ⟨"assistant", "B"⟩,
         ⟨"user", "C"⟩, ⟨"assistant", "D"⟩] := rfl

/-- C3: when the gateway call fails, the turn propagates an error (the
failure wrapped by the endpoint's generic handler as status 500 with the
classified error rendered in the detail) and the conversation afterwards holds
exactly one more message than before — the user message; no assistant or
placeholder message is appended. -/
theorem C3_failed_gateway_appends_only_user (cc : Bool) (p : ProviderResult)
    (conv : Conversation) (input : UserInput) (e : HTTPException)
    (hactive : conv.active = true)
    (hfail : query_groq_api cc p = Except.error e) :
    (chat cc p conv input).2 = Except.error ⟨500, HTTPException.toStr e⟩ ∧
    (chat cc p conv input).1.messages
      = conv.messages ++ [⟨input.role, input.message⟩] ∧
    (chat cc p conv input).1.messages.length = conv.messages.length + 1 := by
  unfold chat
  rw [hactive]
  simp [hfail]

/-- C3 (witness): a concrete failed provider call on a fresh conversation. -/
theorem C3_witness :
    (chat true (ProviderResult.failure "boom") Conversation.init demoInput).2
      = Except.error ⟨500, HTTPException.toStr ⟨500, "Error with Groq API: boom"⟩⟩ ∧
    (chat true (ProviderResult.failure "boom") Conversation.init demoInput).1.messages
      = Conversation.init.messages ++ [⟨demoInput.role, demoInput.message⟩] ∧
    (chat true (ProviderResult.failure "boom") Conversation.init demoInput).1.messages.length
      = Conversation.init.messages.length + 1 :=
  C3_failed_gateway_appends_only_user true (ProviderResult.failure "boom")
    Conversation.init demoInput ⟨500, "Error with Groq API: boom"⟩ rfl rfl

/-- C4: a turn on a conversation whose active flag is false fails with the
session-ended error (HTTP 400) and leaves the conversation — and, at the
endpoint level, the whole store — completely unchanged. -/
theorem C4_terminal_rejection (cc : Bool) (p : ProviderResult)
    (conv : Conversation) (input : UserInput) (h : conv.active = false) :
    chat cc p conv input = (conv, Except.error sessionEndedExn) ∧
    ∀ s, lookupConv s input.conversation_id = some conv →
      chat_endpoint cc p s input = (s, Except.error sessionEndedExn) := by
  have h1 : chat cc p conv input = (conv, Except.error sessionEndedExn) := by
    unfold chat
    rw [h]
    rfl
  refine ⟨h1, ?_⟩
  intro s hs
  have h2 : get_or_create_conversation s input.conversation_id = (s, conv) := by
    unfold get_or_create_conversation
    rw [hs]
  unfold chat_endpoint
  rw [h2]
  simp only [h1]
  rw [storeSet_lookup_eq s input.conversation_id conv hs]

/-- C4 (witness): a concrete ended conversation rejects a turn and neither
the conversation nor the store holding it changes. -/
theorem C4_witness :
    chat true (ProviderResult.success (some demoReply)) endedConversation demoInput
      = (endedConversation, Except.error sessionEndedExn) ∧
    chat_endpoint true (ProviderResult.success (some demoReply)) endedStore demoInput
      = (endedStore, Except.error sessionEndedExn) := by
  have h := C4_terminal_rejection true (ProviderResult.success (some demoReply))
    endedConversation demoInput rfl
  exact ⟨h.1, h.2 endedStore rfl⟩

/-- When the id is already bound, get_or_create_conversation returns the store
untouched together with the bound conversation. -/
theorem get_or_create_of_lookup (s : Store) (cid : String) (c : Conversation)
    (h : lookupConv s cid = some c) : get_or_create_conversation s cid = (s, c) := by
  unfold get_or_create_conversation
  rw [h]

/-- C5: get_or_create_conversation is idempotent and hands back the stored
conversation itself: a second sequential call returns the very same store and
conversation, and the messages a successful turn appends through the endpoint
are visible to a subsequent call with the same id — the observable content of
the "same instance, not a copy" guarantee. -/
theorem C5_same_instance (s : Store) (input : UserInput) (r : String)
    (hactive : ((get_or_create_conversation s input.conversation_id).2).active = true)
    (hr : r.isEmpty = false) :
    get_or_create_conversation (get_or_create_conversation s input.conversation_id).1
        input.conversation_id
      = ((get_or_create_conversation s input.conversation_id).1,
         (get_or_create_conversation s input.conversation_id).2) ∧
    (get_or_create_conversation
        (chat_endpoint true (ProviderResult.success (some r))
          (get_or_create_conversation s input.conversation_id).1 input).1
        input.conversation_id).2
      = ⟨(get_or_create_conversation s input.conversation_id).2.messages
           ++ [⟨input.role, input.message⟩, ⟨"assistant", r⟩],
         (get_or_create_conversation s input.conversation_id).2.active⟩ := by
  have hl := get_or_create_lookup s input.conversation_id
  have h1 := get_or_create_of_lookup _ _ _ hl
  refine ⟨h1, ?_⟩
  have hq : query_groq_api true (ProviderResult.success (some r)) = Except.ok r := by
    simp [query_groq_api, pyFalsy, hr]
  have hc : (chat true (ProviderResult.success (some r))
        (get_or_create_conversation s input.conversation_id).2 input).1
      = ⟨(get_or_create_conversation s input.conversation_id).2.messages
           ++ [⟨input.role, input.message⟩, ⟨"assistant", r⟩],
         (get_or_create_conversation s input.conversation_id).2.active⟩ := by
    unfold chat
    rw [hactive]
    simp [hq]
  have h2 : lookupConv
        (chat_endpoint true (ProviderResult.success (some r))
          (get_or_create_conversation s input.conversation_id).1 input).1
        input.conversation_id
      = some (chat true (ProviderResult.success (some r))
          (get_or_create_conversation s input.conversation_id).2 input).1 := by
    unfold chat_endpoint
    rw [h1]
    exact lookupConv_storeSet_self _ _ _
  rw [get_or_create_of_lookup _ _ _ h2]
  exact hc

/-- C5 (witness): the fresh store, the demo request and the demo reply. -/
theorem C5_witness :
    get_or_create_conversation (get_or_create_conversation [] demoInput.conversation_id).1
        demoInput.conversation_id
      = ((get_or_create_conversation [] demoInput.conversation_id).1,
         (get_or_create_conversation [] demoInput.conversation_id).2) :=
  (C5_same_instance [] demoInput demoReply rfl rfl).1

/-- C6 (counterexample): with a configured client, a provider text wrapped in
whitespace is returned untrimmed, and a whitespace-only provider text is
returned as a success instead of failing as an empty response. -/
theorem C6_counterexample :
    query_groq_api true (ProviderResult.success (some "  trimmed  "))
      = Except.ok "  trimmed  " ∧
    query_groq_api true (ProviderResult.success (some " ")) = Except.ok " " :=
  ⟨rfl, rfl⟩

/-- C6 (amended): the gateway returns the provider text verbatim — no
whitespace trimming — and rejects exactly the Python-falsy contents: it fails
(with the wrapped empty-response error) when the text is the empty string, and
returns any other text, whitespace-only included, unchanged. -/
theorem C6_untrimmed_empty_check (content : String) :
    (content = "" →
      query_groq_api true (ProviderResult.success (some content))
        = Except.error
            ⟨500, "Error with Groq API: 500: Empty response from Groq API"⟩) ∧
    (content ≠ "" →
      query_groq_api true (ProviderResult.success (some content))
        = Except.ok content) := by
  constructor
  · intro h
    subst h
    rfl
  · intro h
    have hne : content.isEmpty = false := by
      rw [Bool.eq_false_iff]
      intro hc
      exact h ((String.isEmpty_iff content).mp hc)
    simp [query_groq_api, pyFalsy, hne]

/-- C6 (witness): both branches at concrete contents. -/
theorem C6_witness :
    query_groq_api true (ProviderResult.success (some "hello")) = Except.ok "hello" ∧
    query_groq_api true (ProviderResult.success (some ""))
      = Except.error
          ⟨500, "Error with Groq API: 500: Empty response from Groq API"⟩ :=
  ⟨(C6_untrimmed_empty_check "hello").2 (by decide),
   (C6_untrimmed_empty_check "").1 rfl⟩

/-- C7 (counterexample): a turn whose role is "wizard" — outside the closed
enumeration — is not rejected: it succeeds, and a message with role "wizard"
is appended to the conversation. -/
theorem C7_counterexample :
    (chat true (ProviderResult.success (some "ok")) Conversation.init wizardInput).2
      = Except.ok ⟨"ok", "abc123"⟩ ∧
    (chat true (ProviderResult.success (some "ok")) Conversation.init wizardInput).1.messages
      = [systemMessage, ⟨"wizard", "cast a spell"⟩, ⟨"assistant", "ok"⟩] :=
  ⟨rfl, rfl⟩

/-- C7 (amended): no role validation exists — on an active conversation the
incoming role string, whatever its value, is appended verbatim, and no
InvalidArgument rejection can occur: every error such a turn can produce has
status 500 (422 is impossible). -/
theorem C7_no_role_validation (cc : Bool) (p : ProviderResult)
    (conv : Conversation) (input : UserInput) (hactive : conv.active = true) :
    Msg.mk input.role input.message ∈ (chat cc p conv input).1.messages ∧
    ∀ e, (chat cc p conv input).2 = Except.error e → e.status_code = 500 :=
  ⟨chat_user_msg_mem cc p conv input hactive,
   fun e he => chat_error_status cc p conv input hactive e he⟩

/-- C7 (witness): the "wizard" role at a concrete run. -/
theorem C7_witness :
    Msg.mk wizardInput.role wizardInput.message
      ∈ (chat true (ProviderResult.success (some "ok"))
          Conversation.init wizardInput).1.messages :=
  (C7_no_role_validation true (ProviderResult.success (some "ok"))
      Conversation.init wizardInput rfl).1

/-- C8 (counterexample): with no credential configured, the caller of a fresh
active conversation observes HTTP 500 — not 503: the 503 raised inside
query_groq_api is caught by the endpoint's generic handler and re-raised with
status 500, the original exception rendered into the detail. -/
theorem C8_counterexample :
    (chat false (ProviderResult.failure "network unreachable")
        Conversation.init demoInput).2
      = Except.error
          ⟨500, "503: Groq API client not initialized. API key missing."⟩ :=
  rfl

/-- C8 (amended): with no credential the gateway refuses with a 503 before
any network I/O — the outcome does not depend on what the provider would have
answered — but the endpoint's generic exception handler reclassifies the
failure, so the caller observes status 500 with the original 503 line embedded
in the detail. -/
theorem C8_not_configured_reclassified (p q : ProviderResult)
    (conv : Conversation) (input : UserInput) (hactive : conv.active = true) :
    query_groq_api false p
      = Except.error ⟨503, "Groq API client not initialized. API key missing."⟩ ∧
    (chat false p conv input).2
      = Except.error
          ⟨500, "503: Groq API client not initialized. API key missing."⟩ ∧
    chat false p conv input = chat false q conv input := by
  refine ⟨rfl, ?_, rfl⟩
  unfold chat
  rw [hactive]
  rfl

/-- C8 (witness): concrete run with no credential; the provider argument is a
failure that is never consulted. -/
theorem C8_witness :
    (chat false (ProviderResult.failure "boom") Conversation.init demoInput).2
      = Except.error
          ⟨500, "503: Groq API client not initialized. API key missing."⟩ :=
  (C8_not_configured_reclassified (ProviderResult.failure "boom")
      (ProviderResult.success (some "x")) Conversation.init demoInput rfl).2.1

/-- C9 (counterexample): a turn with empty message content is accepted: it
succeeds, and a user message with empty content is appended. -/
theorem C9_counterexample :
    (chat true (ProviderResult.success (some "ok")) Conversation.init emptyInput).2
      = Except.ok ⟨"ok", "abc123"⟩ ∧
    (chat true (ProviderResult.success (some "ok")) Conversation.init emptyInput).1.messages
      = [systemMessage, ⟨"user", ""⟩, ⟨"assistant", "ok"⟩] :=
  ⟨rfl, rfl⟩

/-- C9 (amended): no content validation exists — a turn whose message is the
empty string is accepted on an active conversation: the empty-content user
message is appended, and no InvalidArgument rejection occurs (every error such
a turn can produce has status 500). -/
theorem C9_empty_content_accepted (cc : Bool) (p : ProviderResult)
    (conv : Conversation) (input : UserInput) (hactive : conv.active = true)
    (hempty : input.message = "") :
    Msg.mk input.role "" ∈ (chat cc p conv input).1.messages ∧
    ∀ e, (chat cc p conv input).2 = Except.error e → e.status_code = 500 := by
  constructor
  · rw [← hempty]
    exact chat_user_msg_mem cc p conv input hactive
  · exact fun e he => chat_error_status cc p conv input hactive e he

/-- C9 (witness): the empty-content request at a concrete run. -/
theorem C9_witness :
    Msg.mk emptyInput.role ""
      ∈ (chat true (ProviderResult.success (some "ok"))
          Conversation.init emptyInput).1.messages :=
  (C9_empty_content_accepted true (ProviderResult.success (some "ok"))
      Conversation.init emptyInput rfl rfl).1

/-- C10: every conversation is constructed with active = true (in both source
files), no operation reachable from the chat endpoint ever clears the flag, so
in every reachable store each stored conversation is active and the
session-ended rejection branch can never fire. -/
theorem C10_session_ended_unreachable (s : Store) (h : Reachable s) :
    Conversation.init.active = true ∧ mujConversationInit.active = true ∧
    (∀ cid c, lookupConv s cid = some c → c.active = true) ∧
    (∀ cc p input, (chat_endpoint cc p s input).2 ≠ Except.error sessionEndedExn) := by
  refine ⟨rfl, rfl, ?_, ?_⟩
  · intro cid c hc
    exact (reachable_storeInv s h cid c hc).1
  · intro cc p input hcontra
    have hact : ((get_or_create_conversation s input.conversation_id).2).active = true :=
      (storeInv_get_or_create s input.conversation_id (reachable_storeInv s h)).2.1
    have he : (chat cc p (get_or_create_conversation s input.conversation_id).2 input).2
        = Except.error sessionEndedExn := hcontra
    have h500 := chat_error_status cc p _ input hact sessionEndedExn he
    simp [sessionEndedExn] at h500

/-- C10 (witness): in the store reached by one successful demo request, a
further request never hits the session-ended branch. -/
theorem C10_witness :
    (chat_endpoint true (ProviderResult.success (some demoReply)) demoStore demoInput).2
      ≠ Except.error sessionEndedExn :=
  (C10_session_ended_unreachable demoStore
      (Reachable.step true (ProviderResult.success (some demoReply)) demoInput []
        Reachable.init)).2.2.2
    true (ProviderResult.success (some demoReply)) demoInput
